import Mathlib

/-!
Verification of `src/disclaim.cpp`: a macOS shim that re-launches the current
process with disclaimed TCC responsibilities via `posix_spawnp` with
`POSIX_SPAWN_SETEXEC`.

The embedding is a shallow one: the OS calls made by `disclaim()` are
modelled by an oracle (`OSEnv`) supplying, for each call, the error code it
returns, together with the runtime availability of macOS 10.14 and the
presence of the weakly-linked `responsibility_spawnattrs_setdisclaim`
symbol, and the process's argument vector and environment.  Executing
`disclaim` against an oracle yields the ordered trace of observable events
(configuration calls, attribute destruction, stderr writes, the spawn call)
and a terminal outcome (exit with a code, image replaced, or return to the
caller).
-/

namespace Disclaim

/-- Signal numbers; macOS has `NSIG = 32`. -/
abbrev Signal := Fin 32

/-- Model of `sigset_t` as a finite set of signal numbers. -/
abbrev SigSet := Finset Signal

/-- The empty signal set produced by `sigemptyset` (the `no_signals` set). -/
def sigemptyset : SigSet := ∅

/-- The full signal set produced by `sigfillset` (the `all_signals` set). -/
def sigfillset : SigSet := Finset.univ

/-- Flag value of `POSIX_SPAWN_SETEXEC` from macOS spawn headers. -/
def POSIX_SPAWN_SETEXEC : Nat := 0x0040

/-- Flag value of `POSIX_SPAWN_SETSIGMASK` from macOS spawn headers. -/
def POSIX_SPAWN_SETSIGMASK : Nat := 0x0008

/-- Flag value of `POSIX_SPAWN_SETSIGDEF` from macOS spawn headers. -/
def POSIX_SPAWN_SETSIGDEF : Nat := 0x0004

/-- The observable content of a `posix_spawnattr_t` as configured by
`disclaim()`: the installed signal mask, the set of signals reset to their
default dispositions, the flags word, and the responsibility-disclaim bit. -/
structure SpawnAttr where
  sigmask : SigSet
  sigdefault : SigSet
  flags : Nat
  disclaim : Bool
deriving DecidableEq

/-- The attribute state produced by a successful `posix_spawnattr_init`. -/
def SpawnAttr.initAttr : SpawnAttr :=
  { sigmask := ∅, sigdefault := ∅, flags := 0, disclaim := false }

/-- The argument bundle of a `posix_spawnp` invocation: target path,
file-actions pointer (`none` models `nullptr`), attributes, argument
vector and environment block. -/
structure SpawnCall where
  path : String
  fileActions : Option Unit
  attr : SpawnAttr
  argv : List String
  envp : List String
deriving DecidableEq

/-- Oracle for the OS facilities used by `disclaim()`: the error code each
call returns (`0` means success), whether `__builtin_available(macOS 10.14, *)`
holds, whether the weak symbol `responsibility_spawnattrs_setdisclaim`
resolved non-null, the current argument vector (`*_NSGetArgv()`),
the environment block (`environ`), and `strerror`. -/
structure OSEnv where
  initErr : Nat
  setsigmaskErr : Nat
  setsigdefaultErr : Nat
  setflagsErr : Nat
  setdisclaimErr : Nat
  spawnErr : Nat
  osAtLeast10_14 : Bool
  disclaimSymbolPresent : Bool
  argv : List String
  environ : List String
  strerror : Nat → String

/-- Observable events of one activation of `disclaim()`, in program order. -/
inductive Event where
  | initCall
  | setsigmaskCall (mask : SigSet)
  | setsigdefaultCall (sigs : SigSet)
  | setflagsCall (flags : Nat)
  | setdisclaimCall (value : Nat)
  | destroyCall
  | stderrWrite (text : String)
  | spawnpCall (c : SpawnCall)
deriving DecidableEq

/-- Terminal outcome of one activation of `disclaim()`:
`exited e` models `exit(e)`, `replaced c` models the process image being
replaced by a successful `POSIX_SPAWN_SETEXEC` spawn with arguments `c`,
and `returned` models `disclaim()` returning control to its caller. -/
inductive Outcome where
  | exited (code : Nat)
  | replaced (c : SpawnCall)
  | returned
deriving DecidableEq

/-- A complete run: the event trace and the terminal outcome. -/
structure Run where
  trace : List Event
  outcome : Outcome
deriving DecidableEq

/-- The diagnostic text produced by the `CHECK_SPAWN` macro:
`fprintf(stderr, "[disclaim] %s: %s", #expr, strerror(err))`. -/
def checkSpawnMsg (env : OSEnv) (exprText : String) (err : Nat) : String :=
  "[disclaim] " ++ exprText ++ ": " ++ env.strerror err

/-- The failure tail of the `CHECK_SPAWN` macro: destroy the attributes,
write the diagnostic.  (`exit(err)` is the run's outcome.) -/
def checkSpawnFail (env : OSEnv) (exprText : String) (err : Nat) : List Event :=
  [Event.destroyCall, Event.stderrWrite (checkSpawnMsg env exprText err)]

/-- Result of the modelled `posix_spawnp` OS call. -/
inductive SpawnpResult where
  | failed (err : Nat)
  | replacedImage
  | spawnedChild
deriving DecidableEq

/-- Model of the OS `posix_spawnp` call: it fails with the oracle's error
code, or succeeds; per macOS semantics a successful spawn whose attributes
carry `POSIX_SPAWN_SETEXEC` replaces the calling process image in place and
never returns, while without that flag a child is spawned and the call
returns to the caller. -/
def posix_spawnp (env : OSEnv) (c : SpawnCall) : SpawnpResult :=
  if env.spawnErr ≠ 0 then .failed env.spawnErr
  else if c.attr.flags &&& POSIX_SPAWN_SETEXEC ≠ 0 then .replacedImage
  else .spawnedChild

/-- Shallow embedding of `disclaim()` from `src/disclaim.cpp`, step by step:
`posix_spawnattr_init`; `flags = POSIX_SPAWN_SETEXEC`;
`sigemptyset` and `posix_spawnattr_setsigmask`, `flags |= POSIX_SPAWN_SETSIGMASK`;
`sigfillset` and `posix_spawnattr_setsigdefault`, `flags |= POSIX_SPAWN_SETSIGDEF`;
`posix_spawnattr_setflags`; under `__builtin_available(macOS 10.14, *)` and a
non-null weak symbol, `responsibility_spawnattrs_setdisclaim(&attr, 1)`;
finally `posix_spawnp(&pid, argv[0], nullptr, &attr, argv, environ)`.
Each call is guarded by `CHECK_SPAWN`. -/
def disclaim (env : OSEnv) : Run :=
  let t1 := [Event.initCall]
  if env.initErr ≠ 0 then
    { trace := t1 ++ checkSpawnFail env "posix_spawnattr_init(&attr)" env.initErr,
      outcome := .exited env.initErr }
  else
    let attr0 := SpawnAttr.initAttr
    let flags1 := POSIX_SPAWN_SETEXEC
    let no_signals := sigemptyset
    let t2 := t1 ++ [Event.setsigmaskCall no_signals]
    if env.setsigmaskErr ≠ 0 then
      { trace := t2 ++ checkSpawnFail env "posix_spawnattr_setsigmask(&attr, &no_signals)" env.setsigmaskErr,
        outcome := .exited env.setsigmaskErr }
    else
      let attr1 := { attr0 with sigmask := no_signals }
      let flags2 := flags1 ||| POSIX_SPAWN_SETSIGMASK
      let all_signals := sigfillset
      let t3 := t2 ++ [Event.setsigdefaultCall all_signals]
      if env.setsigdefaultErr ≠ 0 then
        { trace := t3 ++ checkSpawnFail env "posix_spawnattr_setsigdefault(&attr, &all_signals)" env.setsigdefaultErr,
          outcome := .exited env.setsigdefaultErr }
      else
        let attr2 := { attr1 with sigdefault := all_signals }
        let flags3 := flags2 ||| POSIX_SPAWN_SETSIGDEF
        let t4 := t3 ++ [Event.setflagsCall flags3]
        if env.setflagsErr ≠ 0 then
          { trace := t4 ++ checkSpawnFail env "posix_spawnattr_setflags(&attr, flags)" env.setflagsErr,
            outcome := .exited env.setflagsErr }
        else
          let attr3 := { attr2 with flags := flags3 }
          let doDisclaim := env.osAtLeast10_14 && env.disclaimSymbolPresent
          let t5 := if doDisclaim then t4 ++ [Event.setdisclaimCall 1] else t4
          if doDisclaim = true ∧ env.setdisclaimErr ≠ 0 then
            { trace := t5 ++ checkSpawnFail env "responsibility_spawnattrs_setdisclaim(&attr, 1)" env.setdisclaimErr,
              outcome := .exited env.setdisclaimErr }
          else
            let attr4 := if doDisclaim then { attr3 with disclaim := true } else attr3
            let c : SpawnCall :=
              { path := env.argv.headD "", fileActions := none, attr := attr4,
                argv := env.argv, envp := env.environ }
            let t6 := t5 ++ [Event.spawnpCall c]
            match posix_spawnp env c with
            | .failed err =>
                { trace := t6 ++ checkSpawnFail env "posix_spawnp(&pid, argv[0], nullptr, &attr, argv, environ)" err,
                  outcome := .exited err }
            | .replacedImage => { trace := t6, outcome := .replaced c }
            | .spawnedChild => { trace := t6, outcome := .returned }

/-- Whether an event is a write to standard error. -/
def Event.isStderrWrite : Event → Bool
  | .stderrWrite _ => true
  | _ => false

/-- Whether an event is an invocation of `posix_spawnp`. -/
def Event.isSpawnpCall : Event → Bool
  | .spawnpCall _ => true
  | _ => false

/-- Whether an event is an invocation of `posix_spawnattr_setflags`. -/
def Event.isSetflagsCall : Event → Bool
  | .setflagsCall _ => true
  | _ => false

/-- Whether an event is an invocation of
`responsibility_spawnattrs_setdisclaim`. -/
def Event.isSetdisclaimCall : Event → Bool
  | .setdisclaimCall _ => true
  | _ => false

/-- Number of stderr writes in a trace. -/
def countStderr (t : List Event) : Nat := (t.filter Event.isStderrWrite).length

/-- Number of `posix_spawnp` invocations in a trace. -/
def countSpawnp (t : List Event) : Nat := (t.filter Event.isSpawnpCall).length

/-- Number of `posix_spawnattr_setflags` invocations in a trace. -/
def countSetflags (t : List Event) : Nat := (t.filter Event.isSetflagsCall).length

/-- Number of `responsibility_spawnattrs_setdisclaim` invocations in a trace. -/
def countSetdisclaim (t : List Event) : Nat :=
  (t.filter Event.isSetdisclaimCall).length

/-- The flags word `disclaim()` accumulates and applies in its single
`posix_spawnattr_setflags` call. -/
def accumulatedFlags : Nat :=
  POSIX_SPAWN_SETEXEC ||| POSIX_SPAWN_SETSIGMASK ||| POSIX_SPAWN_SETSIGDEF

/-- The fully populated attribute value handed to `posix_spawnp`. -/
def finalAttr (doDisclaim : Bool) : SpawnAttr :=
  { sigmask := ∅, sigdefault := Finset.univ, flags := accumulatedFlags,
    disclaim := doDisclaim }

/-- The `posix_spawnp` argument bundle `disclaim()` builds when it reaches
the spawn call (`dd` records whether the disclaim extension was invoked). -/
def spawnCallOf (env : OSEnv) (dd : Bool) : SpawnCall :=
  { path := env.argv.headD "", fileActions := none, attr := finalAttr dd,
    argv := env.argv, envp := env.environ }

/-- The event prefix of every run that completes all configuration steps. -/
def configEvents (dd : Bool) : List Event :=
  [Event.initCall, Event.setsigmaskCall sigemptyset,
   Event.setsigdefaultCall sigfillset, Event.setflagsCall accumulatedFlags] ++
  (if dd then [Event.setdisclaimCall 1] else [])

/-- Whether the availability guard and the weak-symbol check both pass. -/
def ddOf (env : OSEnv) : Bool := env.osAtLeast10_14 && env.disclaimSymbolPresent

/-- The stringified expressions (`#expr`) produced by `CHECK_SPAWN` for each
guarded call in `disclaim()`. -/
def stepDescriptions : List String :=
  ["posix_spawnattr_init(&attr)",
   "posix_spawnattr_setsigmask(&attr, &no_signals)",
   "posix_spawnattr_setsigdefault(&attr, &all_signals)",
   "posix_spawnattr_setflags(&attr, flags)",
   "responsibility_spawnattrs_setdisclaim(&attr, 1)",
   "posix_spawnp(&pid, argv[0], nullptr, &attr, argv, environ)"]

/-- A concrete oracle in which every OS call succeeds and the disclaim
extension is available; used to instantiate the theorems below. -/
def envAllOK : OSEnv :=
  { initErr := 0, setsigmaskErr := 0, setsigdefaultErr := 0, setflagsErr := 0,
    setdisclaimErr := 0, spawnErr := 0, osAtLeast10_14 := true,
    disclaimSymbolPresent := true, argv := ["/usr/local/bin/app", "--flag"],
    environ := ["HOME=/root", "LANG=C"], strerror := fun e => "oserr " ++ toString e }

/-- A concrete oracle on which the weak disclaim symbol is absent. -/
def envNoExt : OSEnv := { envAllOK with disclaimSymbolPresent := false }

/-- Complete case analysis of `disclaim`: every run is one of seven shapes,
one per failing call plus the success shape. -/
lemma disclaim_shape (env : OSEnv) :
    (env.initErr ≠ 0 ∧ disclaim env =
      { trace := [Event.initCall] ++
          checkSpawnFail env "posix_spawnattr_init(&attr)" env.initErr,
        outcome := .exited env.initErr }) ∨
    (env.initErr = 0 ∧ env.setsigmaskErr ≠ 0 ∧ disclaim env =
      { trace := [Event.initCall, Event.setsigmaskCall sigemptyset] ++
          checkSpawnFail env "posix_spawnattr_setsigmask(&attr, &no_signals)" env.setsigmaskErr,
        outcome := .exited env.setsigmaskErr }) ∨
    (env.initErr = 0 ∧ env.setsigmaskErr = 0 ∧ env.setsigdefaultErr ≠ 0 ∧ disclaim env =
      { trace := [Event.initCall, Event.setsigmaskCall sigemptyset,
            Event.setsigdefaultCall sigfillset] ++
          checkSpawnFail env "posix_spawnattr_setsigdefault(&attr, &all_signals)" env.setsigdefaultErr,
        outcome := .exited env.setsigdefaultErr }) ∨
    (env.initErr = 0 ∧ env.setsigmaskErr = 0 ∧ env.setsigdefaultErr = 0 ∧
      env.setflagsErr ≠ 0 ∧ disclaim env =
      { trace := [Event.initCall, Event.setsigmaskCall sigemptyset,
            Event.setsigdefaultCall sigfillset, Event.setflagsCall accumulatedFlags] ++
          checkSpawnFail env "posix_spawnattr_setflags(&attr, flags)" env.setflagsErr,
        outcome := .exited env.setflagsErr }) ∨
    (env.initErr = 0 ∧ env.setsigmaskErr = 0 ∧ env.setsigdefaultErr = 0 ∧
      env.setflagsErr = 0 ∧ ddOf env = true ∧ env.setdisclaimErr ≠ 0 ∧ disclaim env =
      { trace := configEvents true ++
          checkSpawnFail env "responsibility_spawnattrs_setdisclaim(&attr, 1)" env.setdisclaimErr,
        outcome := .exited env.setdisclaimErr }) ∨
    (env.initErr = 0 ∧ env.setsigmaskErr = 0 ∧ env.setsigdefaultErr = 0 ∧
      env.setflagsErr = 0 ∧ (ddOf env = true → env.setdisclaimErr = 0) ∧
      env.spawnErr ≠ 0 ∧ disclaim env =
      { trace := configEvents (ddOf env) ++ [Event.spawnpCall (spawnCallOf env (ddOf env))] ++
          checkSpawnFail env "posix_spawnp(&pid, argv[0], nullptr, &attr, argv, environ)" env.spawnErr,
        outcome := .exited env.spawnErr }) ∨
    (env.initErr = 0 ∧ env.setsigmaskErr = 0 ∧ env.setsigdefaultErr = 0 ∧
      env.setflagsErr = 0 ∧ (ddOf env = true → env.setdisclaimErr = 0) ∧
      env.spawnErr = 0 ∧ disclaim env =
      { trace := configEvents (ddOf env) ++ [Event.spawnpCall (spawnCallOf env (ddOf env))],
        outcome := .replaced (spawnCallOf env (ddOf env)) }) := by
  by_cases h1 : env.initErr ≠ 0
  · exact Or.inl ⟨h1, by simp [disclaim, h1]⟩
  push_neg at h1
  by_cases h2 : env.setsigmaskErr ≠ 0
  · exact Or.inr (Or.inl ⟨h1, h2, by simp [disclaim, h1, h2]⟩)
  push_neg at h2
  by_cases h3 : env.setsigdefaultErr ≠ 0
  · exact Or.inr (Or.inr (Or.inl ⟨h1, h2, h3, by simp [disclaim, h1, h2, h3]⟩))
  push_neg at h3
  by_cases h4 : env.setflagsErr ≠ 0
  · refine Or.inr (Or.inr (Or.inr (Or.inl ⟨h1, h2, h3, h4, ?_⟩)))
    simp [disclaim, h1, h2, h3, h4, accumulatedFlags]
  push_neg at h4
  by_cases h5 : ddOf env = true ∧ env.setdisclaimErr ≠ 0
  · refine Or.inr (Or.inr (Or.inr (Or.inr (Or.inl ⟨h1, h2, h3, h4, h5.1, h5.2, ?_⟩))))
    have hdd := h5.1
    simp only [ddOf] at hdd
    simp [disclaim, h1, h2, h3, h4, hdd, h5.2, configEvents, ddOf, accumulatedFlags]
  · have h5' : ddOf env = true → env.setdisclaimErr = 0 := by
      intro hdd
      by_contra hne
      exact h5 ⟨hdd, hne⟩
    by_cases h6 : env.spawnErr ≠ 0
    · refine Or.inr (Or.inr (Or.inr (Or.inr (Or.inr (Or.inl ⟨h1, h2, h3, h4, h5', h6, ?_⟩)))))
      cases hdd : ddOf env with
      | true =>
          have h50 := h5' hdd
          simp only [ddOf] at hdd
          simp [disclaim, posix_spawnp, h1, h2, h3, h4, h50, h6, hdd, configEvents, ddOf,
            spawnCallOf, finalAttr, accumulatedFlags, sigemptyset, sigfillset,
            SpawnAttr.initAttr]
      | false =>
          simp only [ddOf] at hdd
          simp [disclaim, posix_spawnp, h1, h2, h3, h4, h6, hdd, configEvents, ddOf,
            spawnCallOf, finalAttr, accumulatedFlags, sigemptyset, sigfillset,
            SpawnAttr.initAttr]
    · push_neg at h6
      refine Or.inr (Or.inr (Or.inr (Or.inr (Or.inr (Or.inr ⟨h1, h2, h3, h4, h5', h6, ?_⟩)))))
      cases hdd : ddOf env with
      | true =>
          have h50 := h5' hdd
          simp only [ddOf] at hdd
          simp [disclaim, posix_spawnp, h1, h2, h3, h4, h50, h6, hdd, configEvents, ddOf,
            spawnCallOf, finalAttr, accumulatedFlags, POSIX_SPAWN_SETEXEC,
            POSIX_SPAWN_SETSIGMASK, POSIX_SPAWN_SETSIGDEF, sigemptyset, sigfillset,
            SpawnAttr.initAttr]
      | false =>
          simp only [ddOf] at hdd
          simp [disclaim, posix_spawnp, h1, h2, h3, h4, h6, hdd, configEvents, ddOf,
            spawnCallOf, finalAttr, accumulatedFlags, POSIX_SPAWN_SETEXEC,
            POSIX_SPAWN_SETSIGMASK, POSIX_SPAWN_SETSIGDEF, sigemptyset, sigfillset,
            SpawnAttr.initAttr]


/-- C1: if any of the configuration calls of steps 1-5 (`posix_spawnattr_init`,
`posix_spawnattr_setsigmask`, `posix_spawnattr_setsigdefault`,
`posix_spawnattr_setflags`) returns a non-zero error code `e`, then
`disclaim()` exits the process with status `e`, writes exactly one
diagnostic to standard error, and never invokes `posix_spawnp`. -/
theorem config_step_failure_fatal (env : OSEnv) (e : Nat) (he : e ≠ 0) :
    (env.initErr = e →
      (disclaim env).outcome = .exited e ∧
      countStderr (disclaim env).trace = 1 ∧
      countSpawnp (disclaim env).trace = 0) ∧
    (env.initErr = 0 → env.setsigmaskErr = e →
      (disclaim env).outcome = .exited e ∧
      countStderr (disclaim env).trace = 1 ∧
      countSpawnp (disclaim env).trace = 0) ∧
    (env.initErr = 0 → env.setsigmaskErr = 0 → env.setsigdefaultErr = e →
      (disclaim env).outcome = .exited e ∧
      countStderr (disclaim env).trace = 1 ∧
      countSpawnp (disclaim env).trace = 0) ∧
    (env.initErr = 0 → env.setsigmaskErr = 0 → env.setsigdefaultErr = 0 →
      env.setflagsErr = e →
      (disclaim env).outcome = .exited e ∧
      countStderr (disclaim env).trace = 1 ∧
      countSpawnp (disclaim env).trace = 0) := by
  refine ⟨fun h1 => ?_, fun h1 h2 => ?_, fun h1 h2 h3 => ?_, fun h1 h2 h3 h4 => ?_⟩ <;>
    simp_all [disclaim, countStderr, countSpawnp, checkSpawnFail,
      Event.isStderrWrite, Event.isSpawnpCall]

/-- Witness for C1 at a concrete oracle whose set-flags call fails with 7. -/
theorem config_step_failure_fatal_witness :
    (disclaim { envAllOK with setflagsErr := 7 }).outcome = .exited 7 ∧
    countStderr (disclaim { envAllOK with setflagsErr := 7 }).trace = 1 ∧
    countSpawnp (disclaim { envAllOK with setflagsErr := 7 }).trace = 0 :=
  (config_step_failure_fatal { envAllOK with setflagsErr := 7 } 7
    (by decide)).2.2.2 rfl rfl rfl rfl

/-- C9: if the availability check and the weak-symbol check both pass and
`responsibility_spawnattrs_setdisclaim` itself returns a non-zero error
code `e`, the failure is handled exactly like a step 1-5 failure: the
attributes are destroyed, one diagnostic is written to standard error, the
process exits with status `e`, and `posix_spawnp` is never invoked. -/
theorem disclaim_ext_failure_fatal (env : OSEnv) (e : Nat) (he : e ≠ 0)
    (h1 : env.initErr = 0) (h2 : env.setsigmaskErr = 0)
    (h3 : env.setsigdefaultErr = 0) (h4 : env.setflagsErr = 0)
    (hdd : ddOf env = true) (h5 : env.setdisclaimErr = e) :
    (disclaim env).outcome = .exited e ∧
    Event.destroyCall ∈ (disclaim env).trace ∧
    countStderr (disclaim env).trace = 1 ∧
    countSpawnp (disclaim env).trace = 0 := by
  simp only [ddOf] at hdd
  simp_all [disclaim, countStderr, countSpawnp, checkSpawnFail,
    Event.isStderrWrite, Event.isSpawnpCall]

/-- Witness for C9 at a concrete oracle whose disclaim-extension call fails
with 13. -/
theorem disclaim_ext_failure_fatal_witness :
    (disclaim { envAllOK with setdisclaimErr := 13 }).outcome = .exited 13 ∧
    Event.destroyCall ∈ (disclaim { envAllOK with setdisclaimErr := 13 }).trace ∧
    countStderr (disclaim { envAllOK with setdisclaimErr := 13 }).trace = 1 ∧
    countSpawnp (disclaim { envAllOK with setdisclaimErr := 13 }).trace = 0 :=
  disclaim_ext_failure_fatal { envAllOK with setdisclaimErr := 13 } 13
    (by decide) rfl rfl rfl rfl rfl rfl

/-- C10: when `posix_spawnattr_init` itself fails with `e`, the failure path
still calls `posix_spawnattr_destroy` on the never-initialized attributes
(second event of the trace), then writes the diagnostic, then exits with
status `e`. -/
theorem init_failure_still_destroys (env : OSEnv) (e : Nat) (he : e ≠ 0)
    (h : env.initErr = e) :
    (disclaim env).trace =
      [Event.initCall, Event.destroyCall,
       Event.stderrWrite ("[disclaim] posix_spawnattr_init(&attr): " ++ env.strerror e)] ∧
    (disclaim env).outcome = .exited e := by
  simp_all [disclaim, checkSpawnFail, checkSpawnMsg]

/-- Witness for C10 at a concrete oracle whose init call fails with 12. -/
theorem init_failure_still_destroys_witness :
    (disclaim { envAllOK with initErr := 12 }).trace =
      [Event.initCall, Event.destroyCall,
       Event.stderrWrite "[disclaim] posix_spawnattr_init(&attr): oserr 12"] ∧
    (disclaim { envAllOK with initErr := 12 }).outcome = .exited 12 :=
  init_failure_still_destroys { envAllOK with initErr := 12 } 12 (by decide) rfl

/-- Stderr-write counting distributes over trace concatenation. -/
lemma countStderr_append (l1 l2 : List Event) :
    countStderr (l1 ++ l2) = countStderr l1 + countStderr l2 := by
  simp [countStderr, List.filter_append]

/-- Spawn-call counting distributes over trace concatenation. -/
lemma countSpawnp_append (l1 l2 : List Event) :
    countSpawnp (l1 ++ l2) = countSpawnp l1 + countSpawnp l2 := by
  simp [countSpawnp, List.filter_append]

/-- Set-flags counting distributes over trace concatenation. -/
lemma countSetflags_append (l1 l2 : List Event) :
    countSetflags (l1 ++ l2) = countSetflags l1 + countSetflags l2 := by
  simp [countSetflags, List.filter_append]

/-- Set-disclaim counting distributes over trace concatenation. -/
lemma countSetdisclaim_append (l1 l2 : List Event) :
    countSetdisclaim (l1 ++ l2) = countSetdisclaim l1 + countSetdisclaim l2 := by
  simp [countSetdisclaim, List.filter_append]

/-- The configuration prefix contains no stderr write. -/
lemma countStderr_configEvents (dd : Bool) : countStderr (configEvents dd) = 0 := by
  cases dd <;> rfl

/-- The configuration prefix contains no spawn call. -/
lemma countSpawnp_configEvents (dd : Bool) : countSpawnp (configEvents dd) = 0 := by
  cases dd <;> rfl

/-- C2: whenever `disclaim()` reaches `posix_spawnp` and the spawn succeeds,
the process image is replaced (the `POSIX_SPAWN_SETEXEC` semantics), so
`disclaim()` never returns control to its caller: no code after the call to
`disclaim()` in the hosting program executes. -/
theorem success_never_returns (env : OSEnv)
    (h1 : env.initErr = 0) (h2 : env.setsigmaskErr = 0)
    (h3 : env.setsigdefaultErr = 0) (h4 : env.setflagsErr = 0)
    (h5 : ddOf env = true → env.setdisclaimErr = 0)
    (h6 : env.spawnErr = 0) :
    (disclaim env).outcome = .replaced (spawnCallOf env (ddOf env)) ∧
    (disclaim env).outcome ≠ .returned := by
  rcases disclaim_shape env with
    ⟨hb, _⟩ | ⟨_, hb, _⟩ | ⟨_, _, hb, _⟩ | ⟨_, _, _, hb, _⟩ |
    ⟨_, _, _, _, hdd, hb, _⟩ | ⟨_, _, _, _, _, hb, _⟩ | ⟨_, _, _, _, _, _, hr⟩
  · exact absurd h1 hb
  · exact absurd h2 hb
  · exact absurd h3 hb
  · exact absurd h4 hb
  · exact absurd (h5 hdd) hb
  · exact absurd h6 hb
  · rw [hr]
    exact ⟨rfl, by simp⟩

/-- Witness for C2 at a concrete all-succeeding oracle. -/
theorem success_never_returns_witness :
    (disclaim envAllOK).outcome = .replaced (spawnCallOf envAllOK (ddOf envAllOK)) ∧
    (disclaim envAllOK).outcome ≠ .returned :=
  success_never_returns envAllOK rfl rfl rfl rfl (fun _ => rfl) rfl

/-- C3: if the availability check and the weak-symbol check both pass, the
extension is invoked with disclaim value `1`; if either fails, the disclaim
step is silently skipped (no extension call anywhere in the trace) and the
spawn call is still performed, with no diagnostic, no attribute destruction
and no exit between the configuration steps and the spawn call. -/
theorem disclaim_step_optional (env : OSEnv)
    (h1 : env.initErr = 0) (h2 : env.setsigmaskErr = 0)
    (h3 : env.setsigdefaultErr = 0) (h4 : env.setflagsErr = 0) :
    (ddOf env = true → Event.setdisclaimCall 1 ∈ (disclaim env).trace) ∧
    (ddOf env = false →
      countSetdisclaim (disclaim env).trace = 0 ∧
      countSpawnp (disclaim env).trace = 1 ∧
      ∃ rest, (disclaim env).trace =
        [Event.initCall, Event.setsigmaskCall sigemptyset,
         Event.setsigdefaultCall sigfillset, Event.setflagsCall accumulatedFlags,
         Event.spawnpCall (spawnCallOf env false)] ++ rest) := by
  rcases disclaim_shape env with
    ⟨hb, _⟩ | ⟨_, hb, _⟩ | ⟨_, _, hb, _⟩ | ⟨_, _, _, hb, _⟩ |
    ⟨_, _, _, _, hdd5, hb, hr⟩ | ⟨_, _, _, _, _, hb, hr⟩ | ⟨_, _, _, _, _, _, hr⟩
  · exact absurd h1 hb
  · exact absurd h2 hb
  · exact absurd h3 hb
  · exact absurd h4 hb
  · constructor
    · intro _
      rw [hr]
      simp [configEvents]
    · intro hdd
      rw [hdd5] at hdd
      exact absurd hdd (by simp)
  · constructor
    · intro hdd
      rw [hr]
      simp [configEvents, hdd]
    · intro hdd
      rw [hr]
      rw [hdd] at hr ⊢
      refine ⟨?_, ?_, checkSpawnFail env "posix_spawnp(&pid, argv[0], nullptr, &attr, argv, environ)" env.spawnErr, ?_⟩
      · simp [countSetdisclaim_append, countSetdisclaim, configEvents,
          checkSpawnFail, Event.isSetdisclaimCall]
      · simp [countSpawnp_append, countSpawnp, configEvents,
          checkSpawnFail, Event.isSpawnpCall]
      · simp [configEvents]
  · constructor
    · intro hdd
      rw [hr]
      simp [configEvents, hdd]
    · intro hdd
      rw [hr]
      rw [hdd] at hr ⊢
      refine ⟨?_, ?_, [], ?_⟩
      · simp [countSetdisclaim_append, countSetdisclaim, configEvents,
          Event.isSetdisclaimCall]
      · simp [countSpawnp_append, countSpawnp, configEvents, Event.isSpawnpCall]
      · simp [configEvents]

/-- Witness for C3 at a concrete oracle lacking the weak symbol. -/
theorem disclaim_step_optional_witness :
    countSetdisclaim (disclaim envNoExt).trace = 0 ∧
    countSpawnp (disclaim envNoExt).trace = 1 ∧
    ∃ rest, (disclaim envNoExt).trace =
      [Event.initCall, Event.setsigmaskCall sigemptyset,
       Event.setsigdefaultCall sigfillset, Event.setflagsCall accumulatedFlags,
       Event.spawnpCall (spawnCallOf envNoExt false)] ++ rest :=
  (disclaim_step_optional envNoExt rfl rfl rfl rfl).2 rfl

/-- C4: `posix_spawnp` is invoked exactly once, with the current executable
path (argument 0), a null file-actions object, the populated attributes,
the unmodified current argument vector and the unmodified environment
block, so the relaunched process observes the identical argument vector
and environment. -/
theorem spawnp_arguments (env : OSEnv)
    (h1 : env.initErr = 0) (h2 : env.setsigmaskErr = 0)
    (h3 : env.setsigdefaultErr = 0) (h4 : env.setflagsErr = 0)
    (h5 : ddOf env = true → env.setdisclaimErr = 0) :
    Event.spawnpCall (spawnCallOf env (ddOf env)) ∈ (disclaim env).trace ∧
    countSpawnp (disclaim env).trace = 1 ∧
    (spawnCallOf env (ddOf env)).path = env.argv.headD "" ∧
    (spawnCallOf env (ddOf env)).fileActions = none ∧
    (spawnCallOf env (ddOf env)).attr = finalAttr (ddOf env) ∧
    (spawnCallOf env (ddOf env)).argv = env.argv ∧
    (spawnCallOf env (ddOf env)).envp = env.environ := by
  rcases disclaim_shape env with
    ⟨hb, _⟩ | ⟨_, hb, _⟩ | ⟨_, _, hb, _⟩ | ⟨_, _, _, hb, _⟩ |
    ⟨_, _, _, _, hdd, hb, _⟩ | ⟨_, _, _, _, _, hb, hr⟩ | ⟨_, _, _, _, _, _, hr⟩
  · exact absurd h1 hb
  · exact absurd h2 hb
  · exact absurd h3 hb
  · exact absurd h4 hb
  · exact absurd (h5 hdd) hb
  · refine ⟨?_, ?_, rfl, rfl, rfl, rfl, rfl⟩
    · rw [hr]; simp
    · rw [hr]
      show countSpawnp (configEvents (ddOf env) ++ _ ++ _) = 1
      rw [countSpawnp_append, countSpawnp_append, countSpawnp_configEvents]
      rfl
  · refine ⟨?_, ?_, rfl, rfl, rfl, rfl, rfl⟩
    · rw [hr]; simp
    · rw [hr]
      show countSpawnp (configEvents (ddOf env) ++ _) = 1
      rw [countSpawnp_append, countSpawnp_configEvents]
      rfl

/-- Witness for C4 at a concrete all-succeeding oracle. -/
theorem spawnp_arguments_witness :
    Event.spawnpCall (spawnCallOf envAllOK (ddOf envAllOK)) ∈ (disclaim envAllOK).trace ∧
    countSpawnp (disclaim envAllOK).trace = 1 ∧
    (spawnCallOf envAllOK (ddOf envAllOK)).path = envAllOK.argv.headD "" ∧
    (spawnCallOf envAllOK (ddOf envAllOK)).fileActions = none ∧
    (spawnCallOf envAllOK (ddOf envAllOK)).attr = finalAttr (ddOf envAllOK) ∧
    (spawnCallOf envAllOK (ddOf envAllOK)).argv = envAllOK.argv ∧
    (spawnCallOf envAllOK (ddOf envAllOK)).envp = envAllOK.environ :=
  spawnp_arguments envAllOK rfl rfl rfl rfl (fun _ => rfl)

/-- C5: the signal mask installed into the configuration is the empty set
(the only `posix_spawnattr_setsigmask` call carries `sigemptyset`, which is
the empty set), and the dispositions reset to default cover the full set of
signals (the only `posix_spawnattr_setsigdefault` call carries `sigfillset`,
which is the universal set). -/
theorem signal_sets_installed (env : OSEnv) (h1 : env.initErr = 0) :
    (Event.setsigmaskCall sigemptyset ∈ (disclaim env).trace ∧
      sigemptyset = (∅ : SigSet)) ∧
    (∀ m, Event.setsigmaskCall m ∈ (disclaim env).trace → m = sigemptyset) ∧
    (env.setsigmaskErr = 0 →
      (Event.setsigdefaultCall sigfillset ∈ (disclaim env).trace ∧
        sigfillset = (Finset.univ : SigSet)) ∧
      (∀ s, Event.setsigdefaultCall s ∈ (disclaim env).trace → s = sigfillset)) := by
  rcases disclaim_shape env with
    ⟨hb, _⟩ | ⟨_, hb, hr⟩ | ⟨_, _, hb, hr⟩ | ⟨_, _, _, hb, hr⟩ |
    ⟨_, _, _, _, hdd5, hb, hr⟩ | ⟨_, _, _, _, _, hb, hr⟩ | ⟨_, _, _, _, _, _, hr⟩
  · exact absurd h1 hb
  · rw [hr]
    refine ⟨⟨by simp, rfl⟩, ?_, fun h2 => absurd h2 hb⟩
    intro m hm
    simp [checkSpawnFail] at hm
    exact hm
  · rw [hr]
    refine ⟨⟨by simp, rfl⟩, ?_, fun _ => ⟨⟨by simp, rfl⟩, ?_⟩⟩ <;>
      · intro m hm
        simp [checkSpawnFail] at hm
        exact hm
  · rw [hr]
    refine ⟨⟨by simp, rfl⟩, ?_, fun _ => ⟨⟨by simp, rfl⟩, ?_⟩⟩ <;>
      · intro m hm
        simp [checkSpawnFail] at hm
        exact hm
  · rw [hr]
    refine ⟨⟨by simp [configEvents], rfl⟩, ?_, fun _ => ⟨⟨by simp [configEvents], rfl⟩, ?_⟩⟩ <;>
      · intro m hm
        simp [configEvents, checkSpawnFail] at hm
        exact hm
  · cases hdd : ddOf env <;> rw [hdd] at hr <;> rw [hr] <;>
      refine ⟨⟨by simp [configEvents], rfl⟩, ?_, fun _ => ⟨⟨by simp [configEvents], rfl⟩, ?_⟩⟩ <;>
      · intro m hm
        simp [configEvents, checkSpawnFail] at hm
        exact hm
  · cases hdd : ddOf env <;> rw [hdd] at hr <;> rw [hr] <;>
      refine ⟨⟨by simp [configEvents], rfl⟩, ?_, fun _ => ⟨⟨by simp [configEvents], rfl⟩, ?_⟩⟩ <;>
      · intro m hm
        simp [configEvents, checkSpawnFail] at hm
        exact hm

/-- Witness for C5 at a concrete all-succeeding oracle. -/
theorem signal_sets_installed_witness :
    (Event.setsigmaskCall sigemptyset ∈ (disclaim envAllOK).trace ∧
      sigemptyset = (∅ : SigSet)) ∧
    (∀ m, Event.setsigmaskCall m ∈ (disclaim envAllOK).trace → m = sigemptyset) ∧
    (envAllOK.setsigmaskErr = 0 →
      (Event.setsigdefaultCall sigfillset ∈ (disclaim envAllOK).trace ∧
        sigfillset = (Finset.univ : SigSet)) ∧
      (∀ s, Event.setsigdefaultCall s ∈ (disclaim envAllOK).trace → s = sigfillset)) :=
  signal_sets_installed envAllOK rfl

/-- C6: the three flags are accumulated into one value
(`POSIX_SPAWN_SETEXEC ||| POSIX_SPAWN_SETSIGMASK ||| POSIX_SPAWN_SETSIGDEF`)
applied to the configuration by exactly one `posix_spawnattr_setflags` call,
which comes after the signal mask and the signal-default set have been
installed, and no set-flags call occurs anywhere else in the run. -/
theorem flags_applied_once_after_installs (env : OSEnv)
    (h1 : env.initErr = 0) (h2 : env.setsigmaskErr = 0)
    (h3 : env.setsigdefaultErr = 0) :
    accumulatedFlags =
      POSIX_SPAWN_SETEXEC ||| POSIX_SPAWN_SETSIGMASK ||| POSIX_SPAWN_SETSIGDEF ∧
    countSetflags (disclaim env).trace = 1 ∧
    ∃ rest, (disclaim env).trace =
      [Event.initCall, Event.setsigmaskCall sigemptyset,
       Event.setsigdefaultCall sigfillset, Event.setflagsCall accumulatedFlags] ++ rest ∧
      countSetflags rest = 0 := by
  rcases disclaim_shape env with
    ⟨hb, _⟩ | ⟨_, hb, _⟩ | ⟨_, _, hb, _⟩ | ⟨_, _, _, hb, hr⟩ |
    ⟨_, _, _, _, hdd5, hb, hr⟩ | ⟨_, _, _, _, _, hb, hr⟩ | ⟨_, _, _, _, _, _, hr⟩
  · exact absurd h1 hb
  · exact absurd h2 hb
  · exact absurd h3 hb
  · rw [hr]
    exact ⟨rfl, rfl,
      checkSpawnFail env "posix_spawnattr_setflags(&attr, flags)" env.setflagsErr,
      rfl, rfl⟩
  · rw [hr]
    exact ⟨rfl, rfl,
      [Event.setdisclaimCall 1] ++
        checkSpawnFail env "responsibility_spawnattrs_setdisclaim(&attr, 1)" env.setdisclaimErr,
      rfl, rfl⟩
  · cases hdd : ddOf env <;> rw [hdd] at hr <;> rw [hr]
    · exact ⟨rfl, rfl,
        [Event.spawnpCall (spawnCallOf env false)] ++
          checkSpawnFail env "posix_spawnp(&pid, argv[0], nullptr, &attr, argv, environ)" env.spawnErr,
        rfl, rfl⟩
    · exact ⟨rfl, rfl,
        [Event.setdisclaimCall 1, Event.spawnpCall (spawnCallOf env true)] ++
          checkSpawnFail env "posix_spawnp(&pid, argv[0], nullptr, &attr, argv, environ)" env.spawnErr,
        rfl, rfl⟩
  · cases hdd : ddOf env <;> rw [hdd] at hr <;> rw [hr]
    · exact ⟨rfl, rfl, [Event.spawnpCall (spawnCallOf env false)], rfl, rfl⟩
    · exact ⟨rfl, rfl,
        [Event.setdisclaimCall 1, Event.spawnpCall (spawnCallOf env true)], rfl, rfl⟩

/-- Witness for C6 at a concrete all-succeeding oracle. -/
theorem flags_applied_once_after_installs_witness :
    accumulatedFlags =
      POSIX_SPAWN_SETEXEC ||| POSIX_SPAWN_SETSIGMASK ||| POSIX_SPAWN_SETSIGDEF ∧
    countSetflags (disclaim envAllOK).trace = 1 ∧
    ∃ rest, (disclaim envAllOK).trace =
      [Event.initCall, Event.setsigmaskCall sigemptyset,
       Event.setsigdefaultCall sigfillset, Event.setflagsCall accumulatedFlags] ++ rest ∧
      countSetflags rest = 0 :=
  flags_applied_once_after_installs envAllOK rfl rfl rfl

/-- C7: on any failure the text written to standard error consists of
exactly one diagnostic of the form
`[disclaim] <failed-step-description>: <OS error text>`, where the step
description is the stringified failing call and the error text is
`strerror` of the exit code. -/
theorem failure_diagnostic_format (env : OSEnv) (e : Nat)
    (h : (disclaim env).outcome = .exited e) :
    ∃ s, s ∈ stepDescriptions ∧
      (disclaim env).trace.filter Event.isStderrWrite =
        [Event.stderrWrite ("[disclaim] " ++ s ++ ": " ++ env.strerror e)] ∧
      ((s = "posix_spawnattr_init(&attr)" ∧ env.initErr = e) ∨
       (s = "posix_spawnattr_setsigmask(&attr, &no_signals)" ∧ env.setsigmaskErr = e) ∨
       (s = "posix_spawnattr_setsigdefault(&attr, &all_signals)" ∧ env.setsigdefaultErr = e) ∨
       (s = "posix_spawnattr_setflags(&attr, flags)" ∧ env.setflagsErr = e) ∨
       (s = "responsibility_spawnattrs_setdisclaim(&attr, 1)" ∧ env.setdisclaimErr = e) ∨
       (s = "posix_spawnp(&pid, argv[0], nullptr, &attr, argv, environ)" ∧ env.spawnErr = e)) := by
  rcases disclaim_shape env with
    ⟨hb, hr⟩ | ⟨_, hb, hr⟩ | ⟨_, _, hb, hr⟩ | ⟨_, _, _, hb, hr⟩ |
    ⟨_, _, _, _, hdd5, hb, hr⟩ | ⟨_, _, _, _, _, hb, hr⟩ | ⟨_, _, _, _, _, _, hr⟩
  · rw [hr] at h ⊢
    simp only [Outcome.exited.injEq] at h
    subst h
    exact ⟨"posix_spawnattr_init(&attr)", by simp [stepDescriptions],
      by simp [checkSpawnFail, checkSpawnMsg, Event.isStderrWrite], Or.inl ⟨rfl, rfl⟩⟩
  · rw [hr] at h ⊢
    simp only [Outcome.exited.injEq] at h
    subst h
    exact ⟨"posix_spawnattr_setsigmask(&attr, &no_signals)", by simp [stepDescriptions],
      by simp [checkSpawnFail, checkSpawnMsg, Event.isStderrWrite],
      Or.inr (Or.inl ⟨rfl, rfl⟩)⟩
  · rw [hr] at h ⊢
    simp only [Outcome.exited.injEq] at h
    subst h
    exact ⟨"posix_spawnattr_setsigdefault(&attr, &all_signals)", by simp [stepDescriptions],
      by simp [checkSpawnFail, checkSpawnMsg, Event.isStderrWrite],
      Or.inr (Or.inr (Or.inl ⟨rfl, rfl⟩))⟩
  · rw [hr] at h ⊢
    simp only [Outcome.exited.injEq] at h
    subst h
    exact ⟨"posix_spawnattr_setflags(&attr, flags)", by simp [stepDescriptions],
      by simp [checkSpawnFail, checkSpawnMsg, Event.isStderrWrite],
      Or.inr (Or.inr (Or.inr (Or.inl ⟨rfl, rfl⟩)))⟩
  · rw [hr] at h ⊢
    simp only [Outcome.exited.injEq] at h
    subst h
    exact ⟨"responsibility_spawnattrs_setdisclaim(&attr, 1)", by simp [stepDescriptions],
      by simp [configEvents, checkSpawnFail, checkSpawnMsg, Event.isStderrWrite],
      Or.inr (Or.inr (Or.inr (Or.inr (Or.inl ⟨rfl, rfl⟩))))⟩
  · rw [hr] at h ⊢
    simp only [Outcome.exited.injEq] at h
    subst h
    refine ⟨"posix_spawnp(&pid, argv[0], nullptr, &attr, argv, environ)",
      by simp [stepDescriptions], ?_,
      Or.inr (Or.inr (Or.inr (Or.inr (Or.inr ⟨rfl, rfl⟩))))⟩
    cases hdd : ddOf env <;>
      simp [configEvents, checkSpawnFail, checkSpawnMsg, Event.isStderrWrite]
  · rw [hr] at h
    simp at h

/-- Witness for C7 at a concrete oracle whose spawn call fails with 9. -/
theorem failure_diagnostic_format_witness :
    ∃ s, s ∈ stepDescriptions ∧
      (disclaim { envAllOK with spawnErr := 9 }).trace.filter Event.isStderrWrite =
        [Event.stderrWrite
          ("[disclaim] " ++ s ++ ": " ++ ({ envAllOK with spawnErr := 9 } : OSEnv).strerror 9)] ∧
      ((s = "posix_spawnattr_init(&attr)" ∧
          ({ envAllOK with spawnErr := 9 } : OSEnv).initErr = 9) ∨
       (s = "posix_spawnattr_setsigmask(&attr, &no_signals)" ∧
          ({ envAllOK with spawnErr := 9 } : OSEnv).setsigmaskErr = 9) ∨
       (s = "posix_spawnattr_setsigdefault(&attr, &all_signals)" ∧
          ({ envAllOK with spawnErr := 9 } : OSEnv).setsigdefaultErr = 9) ∨
       (s = "posix_spawnattr_setflags(&attr, flags)" ∧
          ({ envAllOK with spawnErr := 9 } : OSEnv).setflagsErr = 9) ∨
       (s = "responsibility_spawnattrs_setdisclaim(&attr, 1)" ∧
          ({ envAllOK with spawnErr := 9 } : OSEnv).setdisclaimErr = 9) ∨
       (s = "posix_spawnp(&pid, argv[0], nullptr, &attr, argv, environ)" ∧
          ({ envAllOK with spawnErr := 9 } : OSEnv).spawnErr = 9)) :=
  failure_diagnostic_format { envAllOK with spawnErr := 9 } 9 (by decide)

/-- C8: every failing step destroys the attributes and then writes the
diagnostic as the final two events of the run, after which the process
terminates with a non-zero exit status: the release and the diagnostic both
precede termination, and no stderr write precedes the release. -/
theorem failure_cleanup_order (env : OSEnv) (e : Nat)
    (h : (disclaim env).outcome = .exited e) :
    e ≠ 0 ∧
    ∃ p m, (disclaim env).trace = p ++ [Event.destroyCall, Event.stderrWrite m] ∧
      countStderr p = 0 := by
  rcases disclaim_shape env with
    ⟨hb, hr⟩ | ⟨_, hb, hr⟩ | ⟨_, _, hb, hr⟩ | ⟨_, _, _, hb, hr⟩ |
    ⟨_, _, _, _, hdd5, hb, hr⟩ | ⟨_, _, _, _, _, hb, hr⟩ | ⟨_, _, _, _, _, _, hr⟩
  · rw [hr] at h ⊢
    simp only [Outcome.exited.injEq] at h
    subst h
    exact ⟨hb, [Event.initCall],
      checkSpawnMsg env "posix_spawnattr_init(&attr)" env.initErr, rfl, rfl⟩
  · rw [hr] at h ⊢
    simp only [Outcome.exited.injEq] at h
    subst h
    exact ⟨hb, [Event.initCall, Event.setsigmaskCall sigemptyset],
      checkSpawnMsg env "posix_spawnattr_setsigmask(&attr, &no_signals)" env.setsigmaskErr,
      rfl, rfl⟩
  · rw [hr] at h ⊢
    simp only [Outcome.exited.injEq] at h
    subst h
    exact ⟨hb, [Event.initCall, Event.setsigmaskCall sigemptyset,
        Event.setsigdefaultCall sigfillset],
      checkSpawnMsg env "posix_spawnattr_setsigdefault(&attr, &all_signals)" env.setsigdefaultErr,
      rfl, rfl⟩
  · rw [hr] at h ⊢
    simp only [Outcome.exited.injEq] at h
    subst h
    exact ⟨hb, [Event.initCall, Event.setsigmaskCall sigemptyset,
        Event.setsigdefaultCall sigfillset, Event.setflagsCall accumulatedFlags],
      checkSpawnMsg env "posix_spawnattr_setflags(&attr, flags)" env.setflagsErr, rfl, rfl⟩
  · rw [hr] at h ⊢
    simp only [Outcome.exited.injEq] at h
    subst h
    exact ⟨hb, configEvents true,
      checkSpawnMsg env "responsibility_spawnattrs_setdisclaim(&attr, 1)" env.setdisclaimErr,
      rfl, rfl⟩
  · rw [hr] at h ⊢
    simp only [Outcome.exited.injEq] at h
    subst h
    refine ⟨hb, configEvents (ddOf env) ++ [Event.spawnpCall (spawnCallOf env (ddOf env))],
      checkSpawnMsg env "posix_spawnp(&pid, argv[0], nullptr, &attr, argv, environ)" env.spawnErr,
      by simp [checkSpawnFail], ?_⟩
    rw [countStderr_append, countStderr_configEvents]
    rfl
  · rw [hr] at h
    simp at h

/-- Witness for C8 at a concrete oracle whose set-sigmask call fails with 3. -/
theorem failure_cleanup_order_witness :
    (3 : Nat) ≠ 0 ∧
    ∃ p m, (disclaim { envAllOK with setsigmaskErr := 3 }).trace =
        p ++ [Event.destroyCall, Event.stderrWrite m] ∧
      countStderr p = 0 :=
  failure_cleanup_order { envAllOK with setsigmaskErr := 3 } 3 (by decide)

end Disclaim
